import Mathlib

/-!
Shallow embedding of the xnet eBPF packet pipelines
(src/xnet-ebpf/src/firewall_xdp.rs and src/xnet-ebpf/src/traffic_count_tc.rs)
and proofs about the frozen specification claims.

Machine integers are modelled as Nat with explicit `% 2^32` / `% 2^64`
wherever the Rust code performs wrapping arithmetic on u32 / u64.
eBPF hash maps are modelled as total functions into Option (insertion
always succeeds; capacity exhaustion is outside the model, as the source
ignores insert errors on every state-machine path).
The eBPF target is little-endian, so `u16::from_be` / `u16::to_be` are both
the byte swap `swap16`.
-/

namespace XNet

/-- `u16::from_be` / `u16::to_be` on the little-endian eBPF target:
swap the two bytes of a 16-bit value. -/
def swap16 (x : Nat) : Nat := (x % 256) * 256 + (x / 256) % 256

def ETH_P_IP : Nat := 0x0800

/-- `xdp_action::XDP_PASS` -/
def XDP_PASS : Nat := 2

/-- `TC_ACT_OK` -/
def TC_ACT_OK : Nat := 0

/-- `core::mem::size_of::<EthHdr>()`: 6 + 6 + 2 bytes, `repr(C, packed)`. -/
def ethHdrSize : Nat := 14

/-- `core::mem::size_of::<IpHdr>()`: 1+1+2+2+2+1+1+2+4+4 bytes, `repr(C, packed)`. -/
def ipHdrSize : Nat := 20

/-- `core::mem::size_of::<TcpHdr>()`: 2+2+4+4+1+1+2+2+2 bytes, `repr(C, packed)`. -/
def tcpHdrSize : Nat := 20

/-- Modelled from the spec: the `UdpHdr` struct is used by
`firewall_xdp.rs` but its definition is missing from `src/` (the
`xnet_ebpf` lib.rs present in the repo defines only EthHdr, IpHdr and
TcpHdr). Per spec section 3, UDPHeader is a fixed-layout header with
multi-byte fields in network byte order; the code reads its `source`,
`dest` and `len` fields, which is the standard 8-byte UDP header
(source, dest, length, checksum as u16). -/
def udpHdrSize : Nat := 8

def M32 : Nat := 2 ^ 32

def M64 : Nat := 2 ^ 64

/-- Map update: eBPF `HashMap::insert`, which unconditionally overwrites. -/
def upd {α β : Type} [DecidableEq α] (m : α → Option β) (k : α) (v : β) :
    α → Option β :=
  fun x => if x = k then some v else m x

/-- The header fields a pipeline invocation can read from one frame,
together with the frame length `len = data_end - data`.
`eth_proto`, `saddr`, `daddr`, `source`, `dest` carry the raw values as
read from packet memory (network byte order, read on a little-endian
target); the pipelines apply `swap16` exactly where the source calls
`to_be` / `from_be`. -/
structure Packet where
  len : Nat
  eth_proto : Nat
  protocol : Nat
  saddr : Nat
  daddr : Nat
  source : Nat
  dest : Nat
  flags : Nat

/-- The three maps of firewall_xdp.rs: IP_STATS, CONNECTION_TRACK,
CONNECTION_STATS. -/
structure XdpState where
  ip_stats : Nat → Option Nat
  connection_track : Nat → Option Nat
  connection_stats : Nat → Option Nat

structure PortStats where
  packets : Nat
  bytes : Nat
  last_seen : Nat
deriving DecidableEq

structure DeviceStats where
  packets : Nat
  bytes : Nat
  last_seen : Nat
deriving DecidableEq

structure DeviceConnectionStats where
  device_id : Nat
  src_port : Nat
  dst_port : Nat
  direction : Nat
  protocol : Nat
  timestamp : Nat
  total_packets : Nat
  total_bytes : Nat
deriving DecidableEq

/-- The six maps of traffic_count_tc.rs. `device_map` is keyed by the
16-byte device name, modelled as a list of byte values. -/
structure TcState where
  port_stats : Nat → Option PortStats
  total_stats : Nat → Option Nat
  device_stats : Nat → Option DeviceStats
  device_map : List Nat → Option Nat
  device_context : Nat → Option Nat
  device_connection_stats : Nat → Option DeviceConnectionStats

/-- The list `[st, st+1, ..., st+n-1]`, modelling a bounded Rust
`for i in st..st+n` loop. -/
def natRange (st n : Nat) : List Nat :=
  match n with
  | 0 => []
  | Nat.succ m => st :: natRange (st + 1) m

/- ------------------------------------------------------------------
firewall_xdp.rs
------------------------------------------------------------------ -/

/-- `generate_conn_key` (firewall_xdp.rs lines 220-229):
`(src_ip_u64 << 32) | dst_ip_u64 | (src_port_u64 << 48) | (dst_port_u64 << 32)`
on u64. -/
def generate_conn_key (src_ip dst_ip src_port dst_port : Nat) : Nat :=
  ((src_ip <<< 32) ||| dst_ip ||| (src_port <<< 48) ||| (dst_port <<< 32)) % M64

/-- `update_ip_stats` (lines 231-243): read-increment-store on IP_STATS. -/
def update_ip_stats (s : XdpState) (ip bytes : Nat) : XdpState :=
  let stats := (s.ip_stats ip).getD 0
  { s with ip_stats := upd s.ip_stats ip ((stats + bytes) % M64) }

/-- `update_connection_stats` (lines 245-257). -/
def update_connection_stats (s : XdpState) (conn_key bytes : Nat) : XdpState :=
  let stats := (s.connection_stats conn_key).getD 0
  { s with connection_stats := upd s.connection_stats conn_key ((stats + bytes) % M64) }

def synFlag (flags : Nat) : Bool := (flags &&& 0x02) != 0

def ackFlag (flags : Nat) : Bool := (flags &&& 0x10) != 0

def finFlag (flags : Nat) : Bool := (flags &&& 0x01) != 0

def rstFlag (flags : Nat) : Bool := (flags &&& 0x04) != 0

inductive TcpRule
  | synOnly
  | synAck
  | ackOnly
  | finR
  | rstR
deriving DecidableEq

/-- The if/else-if chain of `handle_tcp_connection` (lines 150-215):
which branch of the state machine fires for a given flags byte.
`none` is the implicit fall-through when no branch condition holds. -/
def ruleOf (flags : Nat) : Option TcpRule :=
  if synFlag flags && !ackFlag flags then some TcpRule.synOnly
  else if synFlag flags && ackFlag flags then some TcpRule.synAck
  else if ackFlag flags && !synFlag flags then some TcpRule.ackOnly
  else if finFlag flags then some TcpRule.finR
  else if rstFlag flags then some TcpRule.rstR
  else none

/-- Body of `handle_tcp_connection` after the bounds check (lines 130-217):
key generation, unconditional connection-stats update, then the state
machine writes selected by `ruleOf`. -/
def tcpApply (s : XdpState) (p : Packet) : XdpState :=
  let conn_key := generate_conn_key p.saddr p.daddr p.source p.dest
  let reverse_conn_key := generate_conn_key p.daddr p.saddr p.dest p.source
  let s1 := update_connection_stats s conn_key p.len
  match ruleOf p.flags with
  | some TcpRule.synOnly =>
      { s1 with connection_track := upd s1.connection_track conn_key 1 }
  | some TcpRule.synAck =>
      { s1 with connection_track := upd (upd s1.connection_track conn_key 2) reverse_conn_key 2 }
  | some TcpRule.ackOnly => s1
  | some TcpRule.finR =>
      { s1 with connection_track := upd (upd s1.connection_track conn_key 3) reverse_conn_key 3 }
  | some TcpRule.rstR =>
      { s1 with connection_track := upd (upd s1.connection_track conn_key 4) reverse_conn_key 4 }
  | none => s1

/-- `handle_tcp_connection` (lines 117-218): `none` models `Err(())`
from the bounds check `data + tcp_offset + tcp_size > data_end`. -/
def handle_tcp_connection (s : XdpState) (p : Packet) : Option XdpState :=
  if ethHdrSize + ipHdrSize + tcpHdrSize > p.len then none
  else some (tcpApply s p)

/-- `handle_udp_connection` (lines 81-115): after the bounds check,
IP_STATS is updated under the source and then the destination address. -/
def handle_udp_connection (s : XdpState) (p : Packet) : Option XdpState :=
  if ethHdrSize + ipHdrSize + udpHdrSize > p.len then none
  else some (update_ip_stats (update_ip_stats s p.saddr p.len) p.daddr p.len)

/-- `xnet` / `try_xnet` (lines 21-79): the XDP entry point. The second
component is the returned verdict; every exit, including the `Err` catch
in `xnet`, yields `XDP_PASS` with whatever state was committed so far. -/
def xnet (s : XdpState) (p : Packet) : XdpState × Nat :=
  if ethHdrSize > p.len then (s, XDP_PASS)
  else if swap16 p.eth_proto ≠ ETH_P_IP then (s, XDP_PASS)
  else if ethHdrSize + ipHdrSize > p.len then (s, XDP_PASS)
  else
    let s1 := update_ip_stats s p.saddr p.len
    if p.protocol = 6 then
      match handle_tcp_connection s1 p with
      | some s2 => (s2, XDP_PASS)
      | none => (s1, XDP_PASS)
    else if p.protocol = 17 then
      match handle_udp_connection s1 p with
      | some s2 => (s2, XDP_PASS)
      | none => (s1, XDP_PASS)
    else (s1, XDP_PASS)

/- ------------------------------------------------------------------
traffic_count_tc.rs
------------------------------------------------------------------ -/

/-- `generate_device_key` (lines 38-46): even key = ingress, odd = egress. -/
def generate_device_key (device_id : Nat) (is_ingress : Bool) : Nat :=
  if is_ingress then device_id * 2 % M32 else (device_id * 2 + 1) % M32

/-- `generate_connection_key` (lines 49-64): wrapping u32 hash of
device id, ports, direction and protocol. -/
def generate_connection_key (device_id src_port dst_port direction protocol : Nat) : Nat :=
  let key := device_id % M32
  let key := (key + src_port) % M32
  let key := (key + (dst_port <<< 16) % M32) % M32
  let key := (key + (direction <<< 24) % M32) % M32
  let key := (key + (protocol <<< 28) % M32) % M32
  key

/-- The 16-byte candidate name probed by the bounded scan: first byte `i`,
rest zero (`name_buf[0] = i` over a zero-initialised buffer). -/
def nameBuf (i : Nat) : List Nat :=
  [i, 0, 0, 0, 0, 0, 0, 0, 0, 0, 0, 0, 0, 0, 0, 0]

/-- `is_veth_device` (lines 67-91): bounded scan of candidate keys
`nameBuf i` for `i in 0..64`; a hit must map to `device_id` and start
with the bytes of "veth" (118, 101, 116, 104). -/
def is_veth_device (s : TcState) (device_id : Nat) : Bool :=
  (natRange 0 64).any fun i =>
    match s.device_map (nameBuf i) with
    | some id =>
        id == device_id
          && (nameBuf i).getD 0 0 == 118
          && (nameBuf i).getD 1 0 == 101
          && (nameBuf i).getD 2 0 == 116
          && (nameBuf i).getD 3 0 == 104
    | none => false

/-- `adjust_direction_for_device` (lines 110-126). -/
def adjust_direction_for_device (s : TcState) (device_id : Nat) (is_ingress : Bool) : Nat :=
  if is_veth_device s device_id then
    if is_ingress then 1 else 0
  else
    if is_ingress then 0 else 1

/-- `update_device_stats` (lines 144-168). Note the key is derived from
`is_ingress` directly, without `adjust_direction_for_device`. -/
def update_device_stats (s : TcState) (device_id : Nat) (is_ingress : Bool)
    (packet_len : Nat) : TcState :=
  let key := generate_device_key device_id is_ingress
  let current_total := (s.total_stats 0).getD 0
  match s.device_stats key with
  | some stats =>
      let new_stats : DeviceStats :=
        { packets := (stats.packets + 1) % M64
          bytes := (stats.bytes + packet_len) % M64
          last_seen := current_total }
      { s with device_stats := upd s.device_stats key new_stats }
  | none =>
      let new_stats : DeviceStats :=
        { packets := 1, bytes := packet_len, last_seen := current_total }
      { s with device_stats := upd s.device_stats key new_stats }

/-- `update_device_connection_stats` (lines 171-214). On a hit the
stored identity fields (device_id, ports, direction, protocol) are kept;
only timestamp and the two counters change. -/
def update_device_connection_stats (s : TcState) (device_id src_port dst_port : Nat)
    (is_ingress : Bool) (protocol packet_len : Nat) : TcState :=
  let direction := adjust_direction_for_device s device_id is_ingress
  let key := generate_connection_key device_id src_port dst_port direction protocol
  let current_total := (s.total_stats 0).getD 0
  match s.device_connection_stats key with
  | some stats =>
      let new_stats : DeviceConnectionStats :=
        { device_id := stats.device_id
          src_port := stats.src_port
          dst_port := stats.dst_port
          direction := stats.direction
          protocol := stats.protocol
          timestamp := current_total
          total_packets := (stats.total_packets + 1) % M64
          total_bytes := (stats.total_bytes + packet_len) % M64 }
      { s with device_connection_stats := upd s.device_connection_stats key new_stats }
  | none =>
      let new_stats : DeviceConnectionStats :=
        { device_id := device_id
          src_port := src_port
          dst_port := dst_port
          direction := direction
          protocol := protocol
          timestamp := current_total
          total_packets := 1
          total_bytes := packet_len }
      { s with device_connection_stats := upd s.device_connection_stats key new_stats }

/-- `get_current_device_context` (lines 217-230): first device id in
`1..64` with a DEVICE_CONTEXT entry; bit 16 of the entry clear means
ingress. -/
def get_current_device_context (s : TcState) : Option (Nat × Bool) :=
  (natRange 1 63).findSome? fun device_id =>
    match s.device_context device_id with
    | some context => some (device_id, ((context >>> 16) &&& 1) == 0)
    | none => none

/-- First half of the total-stats update inlined in `xnet_tc`
(lines 265-270): slot 0, the packet counter. -/
def bump_total_packets (s : TcState) : TcState :=
  match s.total_stats 0 with
  | some total_packets =>
      { s with total_stats := upd s.total_stats 0 ((total_packets + 1) % M64) }
  | none => { s with total_stats := upd s.total_stats 0 1 }

/-- Second half of the total-stats update inlined in `xnet_tc`
(lines 272-277): slot 1, the byte counter. -/
def bump_total_bytes (s : TcState) (packet_len : Nat) : TcState :=
  match s.total_stats 1 with
  | some total_bytes =>
      { s with total_stats := upd s.total_stats 1 ((total_bytes + packet_len) % M64) }
  | none => { s with total_stats := upd s.total_stats 1 packet_len }

/-- The total-stats update inlined in `xnet_tc` (lines 263-278). -/
def update_total_stats (s : TcState) (packet_len : Nat) : TcState :=
  bump_total_bytes (bump_total_packets s) packet_len

/-- One per-port update as inlined twice in `xnet_tc` (lines 307-343);
`current_total` is the TOTAL_STATS slot 0 value, read once before both
updates. -/
def update_port_stats (s : TcState) (port packet_len current_total : Nat) : TcState :=
  match s.port_stats port with
  | some stats =>
      let new_stats : PortStats :=
        { packets := (stats.packets + 1) % M64
          bytes := (stats.bytes + packet_len) % M64
          last_seen := current_total }
      { s with port_stats := upd s.port_stats port new_stats }
  | none =>
      let new_stats : PortStats :=
        { packets := 1, bytes := packet_len, last_seen := current_total }
      { s with port_stats := upd s.port_stats port new_stats }

/-- The two per-port updates of `xnet_tc` (lines 306-343): source port
first, then destination port; `current_total` (TOTAL_STATS slot 0) is
read once before both updates — port updates do not touch it, so the
textually repeated read denotes the same single value. -/
def tcPortStage (s1 : TcState) (p : Packet) : TcState :=
  update_port_stats
    (update_port_stats s1 (swap16 p.source) p.len ((s1.total_stats 0).getD 0))
    (swap16 p.dest) p.len ((s1.total_stats 0).getD 0)

/-- Tail of `xnet_tc` after all header checks pass (lines 302-354):
the two per-port updates and, when a device context is found, the device
and device-connection updates. -/
def tcPortsDevices (s1 : TcState) (p : Packet) : TcState :=
  match get_current_device_context (tcPortStage s1 p) with
  | some (device_id, is_ingress) =>
      update_device_connection_stats
        (update_device_stats (tcPortStage s1 p) device_id is_ingress p.len)
        device_id (swap16 p.source) (swap16 p.dest) is_ingress p.protocol p.len
  | none => tcPortStage s1 p

/-- `xnet_tc` (lines 243-380): the classifier entry point. The packet
length used for counters is `ctx.len()`; the same frame length stands
for `data_end - data` in the bounds checks. The transport header is
parsed with `TcpHdr` for both TCP and UDP, as in the source. -/
def xnet_tc (s : TcState) (p : Packet) : TcState × Nat :=
  if ethHdrSize > p.len then (s, TC_ACT_OK)
  else if swap16 p.eth_proto ≠ ETH_P_IP then (s, TC_ACT_OK)
  else
    let s1 := update_total_stats s p.len
    if ethHdrSize + ipHdrSize > p.len then (s1, TC_ACT_OK)
    else if p.protocol ≠ 6 ∧ p.protocol ≠ 17 then (s1, TC_ACT_OK)
    else if ethHdrSize + ipHdrSize + tcpHdrSize > p.len then (s1, TC_ACT_OK)
    else (tcPortsDevices s1 p, TC_ACT_OK)

/- ------------------------------------------------------------------
Concrete states and packets used by the scenario claims
------------------------------------------------------------------ -/

def xdpEmpty : XdpState :=
  { ip_stats := fun _ => none
    connection_track := fun _ => none
    connection_stats := fun _ => none }

def tcEmpty : TcState :=
  { port_stats := fun _ => none
    total_stats := fun _ => none
    device_stats := fun _ => none
    device_map := fun _ => none
    device_context := fun _ => none
    device_connection_stats := fun _ => none }

/-- Raw little-endian u32 read of the wire bytes 10.0.0.1. -/
def ip1 : Nat := 10 + 1 * 16777216

/-- Raw little-endian u32 read of the wire bytes 10.0.0.2. -/
def ip2 : Nat := 10 + 2 * 16777216

/-- An IPv4 frame with the given length, IP protocol, logical ports and
TCP flags; `eth_proto = 8` is the raw little-endian read of the
big-endian ethertype 0x0800, and the raw port fields are the byte-swapped
logical ports. -/
def mkPkt (len proto sp dp flags : Nat) : Packet :=
  { len := len, eth_proto := 8, protocol := proto, saddr := ip1, daddr := ip2
    source := swap16 sp, dest := swap16 dp, flags := flags }

/-- Forward connection key of the C2 scenario flow 10.0.0.1:1234 → 10.0.0.2:80. -/
def c2fwdKey : Nat := generate_conn_key ip1 ip2 (swap16 1234) (swap16 80)

/-- XDP state after the three C2 frames (60 SYN, 1500 ACK, 40 FIN). -/
def c2xdpFinal : XdpState :=
  (xnet (xnet (xnet xdpEmpty (mkPkt 60 6 1234 80 2)).1 (mkPkt 1500 6 1234 80 16)).1
    (mkPkt 40 6 1234 80 1)).1

/-- TC state after the three C2 frames. -/
def c2tcFinal : TcState :=
  (xnet_tc (xnet_tc (xnet_tc tcEmpty (mkPkt 60 6 1234 80 2)).1 (mkPkt 1500 6 1234 80 16)).1
    (mkPkt 40 6 1234 80 1)).1

/-- The 16-byte device name "veth0". -/
def vethName : List Nat := [118, 101, 116, 104, 48, 0, 0, 0, 0, 0, 0, 0, 0, 0, 0, 0]

/-- The 16-byte device name "eth0" (no virtual-pair name). -/
def ethName : List Nat := [101, 116, 104, 48, 0, 0, 0, 0, 0, 0, 0, 0, 0, 0, 0, 0]

/-- C3 scenario state: "veth0" mapped to device id 7, context present for
id 7 with bit 16 clear (ingress). -/
def c3VethState : TcState :=
  { tcEmpty with
      device_map := upd tcEmpty.device_map vethName 7
      device_context := upd tcEmpty.device_context 7 0 }

/-- C3 comparison state: non-prefixed "eth0" mapped to device id 7. -/
def c3EthState : TcState :=
  { tcEmpty with
      device_map := upd tcEmpty.device_map ethName 7
      device_context := upd tcEmpty.device_context 7 0 }

/-- A valid 60-byte TCP frame for the C3 scenario. -/
def c3pkt : Packet := mkPkt 60 6 1234 80 16

/-- C4: first device-connection update, ingress, dst_port 256
(key `1 + (256 <<< 16) + (6 <<< 28)` after direction 0). -/
def c4s1 : TcState := update_device_connection_stats tcEmpty 1 0 256 true 6 50

/-- C4: second update, egress, dst_port 0 — its key collides with the
record created by `c4s1`. -/
def c4s2 : TcState := update_device_connection_stats c4s1 1 0 0 false 6 70

/-- The colliding device-connection key of the C4 scenario. -/
def c4key : Nat := generate_connection_key 1 0 0 1 6

/- ------------------------------------------------------------------
Helper lemmas
------------------------------------------------------------------ -/

lemma natRange_succ (st m : Nat) : natRange st (m + 1) = st :: natRange (st + 1) m := rfl

lemma findSome_natRange_of_min {α : Type} (f : Nat → Option α) :
    ∀ (n st id : Nat), st ≤ id → id < st + n → (f id).isSome = true →
      (∀ j, st ≤ j → j < id → f j = none) →
      (natRange st n).findSome? f = f id := by
  intro n
  induction n with
  | zero => intro st id h1 h2 _ _; omega
  | succ m ih =>
    intro st id h1 h2 hs hmin
    rw [natRange_succ, List.findSome?_cons]
    rcases Nat.eq_or_lt_of_le h1 with he | hl
    · subst he
      cases hfa : f st with
      | none => rw [hfa] at hs; simp at hs
      | some v => simp [hfa]
    · have hst : f st = none := hmin st (Nat.le_refl st) hl
      rw [hst]
      exact ih (st + 1) id hl (by omega) hs (fun j hj1 hj2 => hmin j (by omega) hj2)

lemma findSome_natRange_none {α : Type} (f : Nat → Option α) :
    ∀ (n st : Nat), (∀ j, st ≤ j → j < st + n → f j = none) →
      (natRange st n).findSome? f = none := by
  intro n
  induction n with
  | zero => intro st _; rfl
  | succ m ih =>
    intro st hall
    rw [natRange_succ, List.findSome?_cons]
    have hst : f st = none := hall st (Nat.le_refl st) (by omega)
    rw [hst]
    exact ih (st + 1) (fun j hj1 hj2 => hall j (by omega) (by omega))

lemma findSome_natRange_sound {α : Type} (f : Nat → Option α) :
    ∀ (n st : Nat) (b : α), (natRange st n).findSome? f = some b →
      ∃ j, st ≤ j ∧ j < st + n ∧ f j = some b := by
  intro n
  induction n with
  | zero => intro st b h; simp [natRange, List.findSome?] at h
  | succ m ih =>
    intro st b h
    rw [natRange_succ, List.findSome?_cons] at h
    cases hfa : f st with
    | some v =>
      rw [hfa] at h
      exact ⟨st, Nat.le_refl st, by omega, by simpa [hfa] using h⟩
    | none =>
      rw [hfa] at h
      obtain ⟨j, hj1, hj2, hj3⟩ := ih (st + 1) b h
      exact ⟨j, by omega, by omega, hj3⟩

lemma get_ctx_congr (s1 s2 : TcState) (h : s1.device_context = s2.device_context) :
    get_current_device_context s1 = get_current_device_context s2 := by
  unfold get_current_device_context
  rw [h]

lemma get_ctx_sound {s : TcState} {id : Nat} {b : Bool}
    (h : get_current_device_context s = some (id, b)) :
    1 ≤ id ∧ id ≤ 63 ∧
      ∃ v, s.device_context id = some v ∧ b = (((v >>> 16) &&& 1) == 0) := by
  obtain ⟨j, hj1, hj2, hfj⟩ := findSome_natRange_sound _ 63 1 (id, b) h
  cases hv : s.device_context j with
  | none => rw [hv] at hfj; simp at hfj
  | some v =>
    rw [hv] at hfj
    simp only [Option.some.injEq, Prod.mk.injEq] at hfj
    obtain ⟨hji, hb⟩ := hfj
    subst hji
    exact ⟨hj1, by omega, v, hv, hb.symm⟩

lemma get_ctx_none {s : TcState}
    (h : ∀ id, 1 ≤ id → id ≤ 63 → s.device_context id = none) :
    get_current_device_context s = none := by
  apply findSome_natRange_none
  intro j hj1 hj2
  rw [h j hj1 (by omega)]

/- Field-preservation facts for the XDP updates. -/

lemma update_ip_stats_track (s : XdpState) (ip bytes : Nat) :
    (update_ip_stats s ip bytes).connection_track = s.connection_track := rfl

lemma update_ip_stats_cs (s : XdpState) (ip bytes : Nat) :
    (update_ip_stats s ip bytes).connection_stats = s.connection_stats := rfl

lemma update_connection_stats_track (s : XdpState) (k bytes : Nat) :
    (update_connection_stats s k bytes).connection_track = s.connection_track := rfl

lemma update_connection_stats_ip (s : XdpState) (k bytes : Nat) :
    (update_connection_stats s k bytes).ip_stats = s.ip_stats := rfl

lemma tcpApply_ip (s : XdpState) (p : Packet) :
    (tcpApply s p).ip_stats = s.ip_stats := by
  unfold tcpApply
  rcases ruleOf p.flags with _ | r
  · rfl
  · cases r <;> rfl

lemma tcpApply_cs (s : XdpState) (p : Packet) :
    (tcpApply s p).connection_stats =
      (update_connection_stats s (generate_conn_key p.saddr p.daddr p.source p.dest)
        p.len).connection_stats := by
  unfold tcpApply
  rcases ruleOf p.flags with _ | r
  · rfl
  · cases r <;> rfl

/- Field-preservation facts for the TC updates. -/

lemma bump_total_packets_frame (s : TcState) :
    (bump_total_packets s).port_stats = s.port_stats ∧
    (bump_total_packets s).device_stats = s.device_stats ∧
    (bump_total_packets s).device_map = s.device_map ∧
    (bump_total_packets s).device_context = s.device_context ∧
    (bump_total_packets s).device_connection_stats = s.device_connection_stats := by
  unfold bump_total_packets
  split <;> exact ⟨rfl, rfl, rfl, rfl, rfl⟩

lemma bump_total_bytes_frame (s : TcState) (L : Nat) :
    (bump_total_bytes s L).port_stats = s.port_stats ∧
    (bump_total_bytes s L).device_stats = s.device_stats ∧
    (bump_total_bytes s L).device_map = s.device_map ∧
    (bump_total_bytes s L).device_context = s.device_context ∧
    (bump_total_bytes s L).device_connection_stats = s.device_connection_stats := by
  unfold bump_total_bytes
  split <;> exact ⟨rfl, rfl, rfl, rfl, rfl⟩

lemma update_total_stats_frame (s : TcState) (L : Nat) :
    (update_total_stats s L).port_stats = s.port_stats ∧
    (update_total_stats s L).device_stats = s.device_stats ∧
    (update_total_stats s L).device_map = s.device_map ∧
    (update_total_stats s L).device_context = s.device_context ∧
    (update_total_stats s L).device_connection_stats = s.device_connection_stats := by
  unfold update_total_stats
  obtain ⟨h1, h2, h3, h4, h5⟩ := bump_total_bytes_frame (bump_total_packets s) L
  obtain ⟨g1, g2, g3, g4, g5⟩ := bump_total_packets_frame s
  exact ⟨h1.trans g1, h2.trans g2, h3.trans g3, h4.trans g4, h5.trans g5⟩

lemma update_port_stats_frame (s : TcState) (port L ct : Nat) :
    (update_port_stats s port L ct).total_stats = s.total_stats ∧
    (update_port_stats s port L ct).device_stats = s.device_stats ∧
    (update_port_stats s port L ct).device_map = s.device_map ∧
    (update_port_stats s port L ct).device_context = s.device_context ∧
    (update_port_stats s port L ct).device_connection_stats = s.device_connection_stats := by
  unfold update_port_stats
  split <;> exact ⟨rfl, rfl, rfl, rfl, rfl⟩

lemma update_device_stats_frame (s : TcState) (id : Nat) (ing : Bool) (L : Nat) :
    (update_device_stats s id ing L).port_stats = s.port_stats ∧
    (update_device_stats s id ing L).total_stats = s.total_stats ∧
    (update_device_stats s id ing L).device_map = s.device_map ∧
    (update_device_stats s id ing L).device_context = s.device_context ∧
    (update_device_stats s id ing L).device_connection_stats = s.device_connection_stats := by
  unfold update_device_stats
  cases h : s.device_stats (generate_device_key id ing) <;> simp [h]

/- Pointwise monotonicity facts for the single-map updates. -/

lemma update_ip_stats_mono (s : XdpState) (ip L k v : Nat)
    (hv : s.ip_stats k = some v) (hb : v + L < M64) :
    ∃ w, (update_ip_stats s ip L).ip_stats k = some w ∧ v ≤ w ∧ w ≤ v + L := by
  by_cases hk : k = ip
  · subst hk
    refine ⟨v + L, ?_, Nat.le_add_right v L, Nat.le_refl _⟩
    simp [update_ip_stats, upd, hv, Nat.mod_eq_of_lt hb]
  · exact ⟨v, by simp [update_ip_stats, upd, hk, hv], Nat.le_refl v, Nat.le_add_right v L⟩

lemma update_connection_stats_mono (s : XdpState) (ck L k v : Nat)
    (hv : s.connection_stats k = some v) (hb : v + L < M64) :
    ∃ w, (update_connection_stats s ck L).connection_stats k = some w ∧ v ≤ w ∧ w ≤ v + L := by
  by_cases hk : k = ck
  · subst hk
    refine ⟨v + L, ?_, Nat.le_add_right v L, Nat.le_refl _⟩
    simp [update_connection_stats, upd, hv, Nat.mod_eq_of_lt hb]
  · exact ⟨v, by simp [update_connection_stats, upd, hk, hv], Nat.le_refl v,
      Nat.le_add_right v L⟩

lemma bump_total_packets_mono (s : TcState) (k v : Nat)
    (hv : s.total_stats k = some v) (hb : v + 1 < M64) :
    ∃ w, (bump_total_packets s).total_stats k = some w ∧ v ≤ w ∧ w ≤ v + 1 := by
  unfold bump_total_packets
  by_cases hk : k = 0
  · subst hk
    rw [hv]
    refine ⟨v + 1, ?_, Nat.le_succ v, Nat.le_refl _⟩
    simp [upd, Nat.mod_eq_of_lt hb]
  · refine ⟨v, ?_, Nat.le_refl v, Nat.le_succ v⟩
    cases h0 : s.total_stats 0 <;> simp [h0, upd, hk, hv]

lemma bump_total_bytes_mono (s : TcState) (L k v : Nat)
    (hv : s.total_stats k = some v) (hb : v + L < M64) :
    ∃ w, (bump_total_bytes s L).total_stats k = some w ∧ v ≤ w ∧ w ≤ v + L := by
  unfold bump_total_bytes
  by_cases hk : k = 1
  · subst hk
    rw [hv]
    refine ⟨v + L, ?_, Nat.le_add_right v L, Nat.le_refl _⟩
    simp [upd, Nat.mod_eq_of_lt hb]
  · refine ⟨v, ?_, Nat.le_refl v, Nat.le_add_right v L⟩
    cases h1 : s.total_stats 1 <;> simp [h1, upd, hk, hv]

lemma update_total_stats_mono (s : TcState) (L k v : Nat)
    (hv : s.total_stats k = some v) (hb : v + 1 + L < M64) :
    ∃ w, (update_total_stats s L).total_stats k = some w ∧ v ≤ w ∧ w ≤ v + 1 + L := by
  obtain ⟨w1, hw1, hle1, hub1⟩ := bump_total_packets_mono s k v hv (by omega)
  obtain ⟨w2, hw2, hle2, hub2⟩ :=
    bump_total_bytes_mono (bump_total_packets s) L k w1 hw1 (by omega)
  exact ⟨w2, hw2, Nat.le_trans hle1 hle2, by omega⟩

lemma update_port_stats_mono (s : TcState) (port L ct k : Nat) (r : PortStats)
    (hv : s.port_stats k = some r) (hp : r.packets + 1 < M64) (hb : r.bytes + L < M64) :
    ∃ r2, (update_port_stats s port L ct).port_stats k = some r2 ∧
      r.packets ≤ r2.packets ∧ r2.packets ≤ r.packets + 1 ∧
      r.bytes ≤ r2.bytes ∧ r2.bytes ≤ r.bytes + L := by
  unfold update_port_stats
  by_cases hk : k = port
  · subst hk
    rw [hv]
    refine ⟨{ packets := (r.packets + 1) % M64, bytes := (r.bytes + L) % M64, last_seen := ct },
      by simp [upd], ?_, ?_, ?_, ?_⟩ <;>
      simp [Nat.mod_eq_of_lt hp, Nat.mod_eq_of_lt hb]
  · refine ⟨r, ?_, Nat.le_refl _, Nat.le_succ _, Nat.le_refl _, Nat.le_add_right _ _⟩
    cases h0 : s.port_stats port <;> simp [h0, upd, hk, hv]

lemma update_port_stats_self (s : TcState) (port L ct : Nat) :
    ((update_port_stats s port L ct).port_stats port).isSome = true := by
  cases h : s.port_stats port <;> simp [update_port_stats, h, upd]

lemma update_port_stats_other (s : TcState) (port L ct k : Nat) (hk : k ≠ port) :
    (update_port_stats s port L ct).port_stats k = s.port_stats k := by
  cases h : s.port_stats port <;> simp [update_port_stats, h, upd, hk]

lemma update_device_stats_mono (s : TcState) (id : Nat) (ing : Bool) (L k : Nat)
    (r : DeviceStats) (hv : s.device_stats k = some r)
    (hp : r.packets + 1 < M64) (hb : r.bytes + L < M64) :
    ∃ r2, (update_device_stats s id ing L).device_stats k = some r2 ∧
      r.packets ≤ r2.packets ∧ r.bytes ≤ r2.bytes := by
  by_cases hk : k = generate_device_key id ing
  · subst hk
    refine ⟨{ packets := (r.packets + 1) % M64
              bytes := (r.bytes + L) % M64
              last_seen := (s.total_stats 0).getD 0 }, ?_, ?_, ?_⟩
    · simp [update_device_stats, hv, upd]
    · show r.packets ≤ (r.packets + 1) % M64
      rw [Nat.mod_eq_of_lt hp]; omega
    · show r.bytes ≤ (r.bytes + L) % M64
      rw [Nat.mod_eq_of_lt hb]; omega
  · refine ⟨r, ?_, Nat.le_refl _, Nat.le_refl _⟩
    cases h0 : s.device_stats (generate_device_key id ing) <;>
      simp [update_device_stats, h0, upd, hk, hv]

lemma update_device_stats_other (s : TcState) (id : Nat) (ing : Bool) (L k : Nat)
    (hk : k ≠ generate_device_key id ing) :
    (update_device_stats s id ing L).device_stats k = s.device_stats k := by
  cases h : s.device_stats (generate_device_key id ing) <;>
    simp [update_device_stats, h, upd, hk]

/-- On a key hit, `update_device_connection_stats` keeps the stored
identity fields and bumps only timestamp and the two counters
(traffic_count_tc.rs lines 186-197). -/
lemma update_device_connection_stats_hit (s : TcState) (id sp dp : Nat) (ing : Bool)
    (proto L : Nat) (r : DeviceConnectionStats)
    (hv : s.device_connection_stats
      (generate_connection_key id sp dp (adjust_direction_for_device s id ing) proto) = some r) :
    (update_device_connection_stats s id sp dp ing proto L).device_connection_stats
        (generate_connection_key id sp dp (adjust_direction_for_device s id ing) proto) =
      some { device_id := r.device_id
             src_port := r.src_port
             dst_port := r.dst_port
             direction := r.direction
             protocol := r.protocol
             timestamp := (s.total_stats 0).getD 0
             total_packets := (r.total_packets + 1) % M64
             total_bytes := (r.total_bytes + L) % M64 } := by
  simp [update_device_connection_stats, hv, upd]

/-- On a key miss, `update_device_connection_stats` creates a fresh
record with count 1 (traffic_count_tc.rs lines 198-210). -/
lemma update_device_connection_stats_miss (s : TcState) (id sp dp : Nat) (ing : Bool)
    (proto L : Nat)
    (hv : s.device_connection_stats
      (generate_connection_key id sp dp (adjust_direction_for_device s id ing) proto) = none) :
    (update_device_connection_stats s id sp dp ing proto L).device_connection_stats
        (generate_connection_key id sp dp (adjust_direction_for_device s id ing) proto) =
      some { device_id := id
             src_port := sp
             dst_port := dp
             direction := adjust_direction_for_device s id ing
             protocol := proto
             timestamp := (s.total_stats 0).getD 0
             total_packets := 1
             total_bytes := L } := by
  simp [update_device_connection_stats, hv, upd]

lemma update_device_connection_stats_mono (s : TcState) (id sp dp : Nat) (ing : Bool)
    (proto L k : Nat) (r : DeviceConnectionStats)
    (hv : s.device_connection_stats k = some r)
    (hp : r.total_packets + 1 < M64) (hb : r.total_bytes + L < M64) :
    ∃ r2, (update_device_connection_stats s id sp dp ing proto L).device_connection_stats k =
        some r2 ∧ r.total_packets ≤ r2.total_packets ∧ r.total_bytes ≤ r2.total_bytes := by
  by_cases hk : k = generate_connection_key id sp dp (adjust_direction_for_device s id ing) proto
  · rw [hk] at hv ⊢
    refine ⟨_, update_device_connection_stats_hit s id sp dp ing proto L r hv, ?_, ?_⟩
    · show r.total_packets ≤ (r.total_packets + 1) % M64
      rw [Nat.mod_eq_of_lt hp]; omega
    · show r.total_bytes ≤ (r.total_bytes + L) % M64
      rw [Nat.mod_eq_of_lt hb]; omega
  · refine ⟨r, ?_, Nat.le_refl _, Nat.le_refl _⟩
    cases h0 : s.device_connection_stats
        (generate_connection_key id sp dp (adjust_direction_for_device s id ing) proto) <;>
      simp [update_device_connection_stats, h0, upd, hk, hv]

lemma update_device_connection_stats_other (s : TcState) (id sp dp : Nat) (ing : Bool)
    (proto L k : Nat)
    (hk : k ≠ generate_connection_key id sp dp (adjust_direction_for_device s id ing) proto) :
    (update_device_connection_stats s id sp dp ing proto L).device_connection_stats k =
      s.device_connection_stats k := by
  cases h : s.device_connection_stats
      (generate_connection_key id sp dp (adjust_direction_for_device s id ing) proto) <;>
    simp [update_device_connection_stats, h, upd, hk]

/- Pipeline path lemmas. -/

lemma xnet_tcp_valid (s : XdpState) (p : Packet)
    (hE : swap16 p.eth_proto = ETH_P_IP) (hP : p.protocol = 6)
    (hL : ethHdrSize + ipHdrSize + tcpHdrSize ≤ p.len) :
    xnet s p = (tcpApply (update_ip_stats s p.saddr p.len) p, XDP_PASS) := by
  have h14 : ¬ ethHdrSize > p.len := by
    simp only [ethHdrSize, ipHdrSize, tcpHdrSize] at hL ⊢; omega
  have h34 : ¬ ethHdrSize + ipHdrSize > p.len := by
    simp only [ethHdrSize, ipHdrSize, tcpHdrSize] at hL ⊢; omega
  have h54 : ¬ ethHdrSize + ipHdrSize + tcpHdrSize > p.len := by omega
  have hE2 : ¬ swap16 p.eth_proto ≠ ETH_P_IP := by simp [hE]
  simp [xnet, handle_tcp_connection, h14, h34, h54, hE2, hP]

lemma xnet_udp_valid (s : XdpState) (p : Packet)
    (hE : swap16 p.eth_proto = ETH_P_IP) (hP : p.protocol = 17)
    (hL : ethHdrSize + ipHdrSize + udpHdrSize ≤ p.len) :
    xnet s p =
      (update_ip_stats (update_ip_stats (update_ip_stats s p.saddr p.len) p.saddr p.len)
        p.daddr p.len, XDP_PASS) := by
  have h14 : ¬ ethHdrSize > p.len := by
    simp only [ethHdrSize, ipHdrSize, udpHdrSize] at hL ⊢; omega
  have h34 : ¬ ethHdrSize + ipHdrSize > p.len := by
    simp only [ethHdrSize, ipHdrSize, udpHdrSize] at hL ⊢; omega
  have h42 : ¬ ethHdrSize + ipHdrSize + udpHdrSize > p.len := by omega
  have hE2 : ¬ swap16 p.eth_proto ≠ ETH_P_IP := by simp [hE]
  have hP6 : ¬ p.protocol = 6 := by omega
  simp [xnet, handle_udp_connection, h14, h34, h42, hE2, hP, hP6]

lemma xnet_tc_valid (s : TcState) (p : Packet)
    (hE : swap16 p.eth_proto = ETH_P_IP) (hP : p.protocol = 6 ∨ p.protocol = 17)
    (hL : ethHdrSize + ipHdrSize + tcpHdrSize ≤ p.len) :
    xnet_tc s p = (tcPortsDevices (update_total_stats s p.len) p, TC_ACT_OK) := by
  have h14 : ¬ ethHdrSize > p.len := by
    simp only [ethHdrSize, ipHdrSize, tcpHdrSize] at hL ⊢; omega
  have h34 : ¬ ethHdrSize + ipHdrSize > p.len := by
    simp only [ethHdrSize, ipHdrSize, tcpHdrSize] at hL ⊢; omega
  have h54 : ¬ ethHdrSize + ipHdrSize + tcpHdrSize > p.len := by omega
  have hE2 : ¬ swap16 p.eth_proto ≠ ETH_P_IP := by simp [hE]
  have hPr : ¬ (p.protocol ≠ 6 ∧ p.protocol ≠ 17) := by tauto
  simp [xnet_tc, h14, h34, h54, hE2, hPr]

lemma xnet_verdict (s : XdpState) (p : Packet) : (xnet s p).2 = XDP_PASS := by
  unfold xnet
  split
  · rfl
  split
  · rfl
  split
  · rfl
  split
  · rcases hm : handle_tcp_connection (update_ip_stats s p.saddr p.len) p with _ | s2 <;>
      simp [hm]
  split
  · rcases hm : handle_udp_connection (update_ip_stats s p.saddr p.len) p with _ | s2 <;>
      simp [hm]
  · rfl

lemma xnet_tc_verdict (s : TcState) (p : Packet) : (xnet_tc s p).2 = TC_ACT_OK := by
  unfold xnet_tc
  repeat' split
  all_goals rfl

lemma update_device_connection_stats_frame (s : TcState) (id sp dp : Nat) (ing : Bool)
    (proto L : Nat) :
    (update_device_connection_stats s id sp dp ing proto L).port_stats = s.port_stats ∧
    (update_device_connection_stats s id sp dp ing proto L).total_stats = s.total_stats ∧
    (update_device_connection_stats s id sp dp ing proto L).device_map = s.device_map ∧
    (update_device_connection_stats s id sp dp ing proto L).device_context = s.device_context ∧
    (update_device_connection_stats s id sp dp ing proto L).device_stats = s.device_stats := by
  unfold update_device_connection_stats
  cases h : s.device_connection_stats
      (generate_connection_key id sp dp (adjust_direction_for_device s id ing) proto) <;>
    simp [h]

lemma upd_upd_idem {β : Type} (m : Nat → Option β) (a b : Nat) (v w : β) :
    upd (upd (upd (upd m a v) b w) a v) b w = upd (upd m a v) b w := by
  funext x
  unfold upd
  by_cases hb : x = b
  · simp [hb]
  · by_cases ha : x = a <;> simp [ha, hb]

lemma tcpApply_ct_synAck (s : XdpState) (p : Packet)
    (h : ruleOf p.flags = some TcpRule.synAck) :
    (tcpApply s p).connection_track =
      upd (upd s.connection_track (generate_conn_key p.saddr p.daddr p.source p.dest) 2)
        (generate_conn_key p.daddr p.saddr p.dest p.source) 2 := by
  simp [tcpApply, h, update_connection_stats_track]

/- ------------------------------------------------------------------
Claim theorems
------------------------------------------------------------------ -/

/-- The bit-range overlap asserted by claim C7: for some valid 4-tuple the
destination-address contribution of `generate_conn_key` (the bare
`dst_ip_u64` term) shares a set bit with the port contributions
(`src_port_u64 <<< 48` and `dst_port_u64 <<< 32`). -/
def dstPortBitOverlap : Prop :=
  ∃ dst sp dp : Nat, dst < 2 ^ 32 ∧ sp < 2 ^ 16 ∧ dp < 2 ^ 16 ∧
    dst &&& ((sp <<< 48) ||| (dp <<< 32)) ≠ 0

/-- Claim C7, counterexample part: the claim as stated is false — the port
fields of `generate_conn_key` never overlap the destination-address bits:
the destination occupies bits 0-31 while both port contributions lie in
bits 32-63, so no valid 4-tuple makes them share a set bit. -/
theorem c7_counterexample : ¬ dstPortBitOverlap := by
  rintro ⟨dst, sp, dp, hdst, hsp, hdp, hne⟩
  apply hne
  apply Nat.eq_of_testBit_eq
  intro i
  simp only [Nat.testBit_land, Nat.testBit_lor, Nat.testBit_shiftLeft, Nat.zero_testBit]
  by_cases hi : i < 32
  · have h48 : ¬ (48 ≤ i) := by omega
    have h32 : ¬ (32 ≤ i) := by omega
    simp [h48, h32]
  · have hd : dst.testBit i = false :=
      Nat.testBit_lt_two_pow
        (lt_of_lt_of_le hdst (Nat.pow_le_pow_right (by norm_num) (by omega)))
    simp [hd]

/-- Claim C7 (amended): in `generate_conn_key` the port fields overlap the
SOURCE-address bit range (src occupies bits 32-63; `dst_port <<< 32`
occupies bits 32-47 and `src_port <<< 48` bits 48-63), not the
destination range; consequently two distinct 4-tuples produce the same
key — e.g. (src=1, dst=0, sp=0, dp=0) and (src=0, dst=0, sp=0, dp=1). -/
theorem c7_amended_overlap :
    ((1 <<< 32) % M64) &&& (((0 : Nat) <<< 48) ||| ((1 : Nat) <<< 32)) ≠ 0 ∧
    generate_conn_key 1 0 0 0 = generate_conn_key 0 0 0 1 ∧
    ((1 : Nat), (0 : Nat), (0 : Nat), (0 : Nat)) ≠ ((0 : Nat), (0 : Nat), (0 : Nat), (1 : Nat)) := by
  refine ⟨by decide, by decide, by decide⟩

/-- Claim C2, counterexample part: in the spec scenario the third frame
(40 bytes, FIN) is shorter than the 54-byte Ethernet+IPv4+TCP header
stack, fails the transport bounds check in both pipelines, and commits
nothing beyond the earlier updates: the forward connection state is still
NEW(1), not CLOSING(3), and each port saw 2 packets, not 3. -/
theorem c2_counterexample :
    c2xdpFinal.connection_track c2fwdKey ≠ some 3 ∧
    (c2tcFinal.port_stats 1234).map PortStats.packets ≠ some 3 := by
  refine ⟨by decide, by decide⟩

/-- Claim C2 (amended): with the same three frames (60 SYN, 1500 ACK,
40 FIN), the run ends with connection_track[fwd] = NEW(1),
connection_stats[fwd] = 1560 (the 40-byte FIN fails the TCP bounds check
and is not counted), port_stats[1234].packets = port_stats[80].packets = 2,
while total_stats still counts all 3 frames and 1600 bytes (it is updated
before the transport check). -/
theorem c2_amended_scenario :
    c2xdpFinal.connection_track c2fwdKey = some 1 ∧
    c2xdpFinal.connection_stats c2fwdKey = some 1560 ∧
    (c2tcFinal.port_stats 1234).map PortStats.packets = some 2 ∧
    (c2tcFinal.port_stats 80).map PortStats.packets = some 2 ∧
    c2tcFinal.total_stats 0 = some 3 ∧
    c2tcFinal.total_stats 1 = some 1600 := by
  refine ⟨by decide, by decide, by decide, by decide, by decide, by decide⟩

/-- Claim C3, counterexample part: with device_map["veth0"] = 7 and a
device context present for id 7 (bit 16 clear, i.e. ingress), a valid
classifier-path packet is NOT recorded under device_stats key 15; it is
recorded under key 14. `update_device_stats` derives its key from the
hook direction without any veth inversion, and the bounded name scan of
`is_veth_device` only probes single-byte names below 64, so "veth0" is
never even recognised. -/
theorem c3_counterexample :
    (xnet_tc c3VethState c3pkt).1.device_stats 15 = none ∧
    ((xnet_tc c3VethState c3pkt).1.device_stats 14).isSome = true := by
  refine ⟨by decide, by decide⟩

/-- Claim C3 (amended): with "veth0" mapped to id 7 and context present,
an ingress-hook packet is recorded in device_stats under key 7*2 = 14
(direction NOT inverted for device_stats), key 15 stays empty, and
`is_veth_device` fails to recognise the veth-prefixed name; a device with
the non-prefixed name "eth0" behaves identically (key 14). -/
theorem c3_amended_device_key :
    ((xnet_tc c3VethState c3pkt).1.device_stats 14).map DeviceStats.packets = some 1 ∧
    (xnet_tc c3VethState c3pkt).1.device_stats 15 = none ∧
    is_veth_device c3VethState 7 = false ∧
    ((xnet_tc c3EthState c3pkt).1.device_stats 14).map DeviceStats.packets = some 1 ∧
    (xnet_tc c3EthState c3pkt).1.device_stats 15 = none := by
  refine ⟨by decide, by decide, by decide, by decide, by decide⟩

/-- Claim C4, counterexample part: a device-connection key hit does NOT
overwrite the stored direction/protocol with the freshly computed values.
The record at `c4key` was created by an ingress packet (direction 0,
dst_port 256); the second, egress packet (freshly computed direction 1,
dst_port 0) hits the same key (total_packets = 2 shows the hit), yet the
stored direction stays 0 — not the freshly computed 1. -/
theorem c4_counterexample :
    (c4s2.device_connection_stats c4key).map DeviceConnectionStats.total_packets = some 2 ∧
    (c4s2.device_connection_stats c4key).map DeviceConnectionStats.direction = some 0 ∧
    adjust_direction_for_device c4s1 1 false = 1 ∧
    (c4s2.device_connection_stats c4key).map DeviceConnectionStats.direction ≠
      some (adjust_direction_for_device c4s1 1 false) := by
  refine ⟨by decide, by decide, by decide, by decide⟩

/-- The combined hash key under which `update_device_connection_stats`
stores its record for the given arguments. -/
def dcsKeyOf (s : TcState) (device_id src_port dst_port : Nat) (is_ingress : Bool)
    (protocol : Nat) : Nat :=
  generate_connection_key device_id src_port dst_port
    (adjust_direction_for_device s device_id is_ingress) protocol

/-- Claim C4 (amended): on a miss of the combined hash key the update
creates a record with packet count 1 and bytes equal to the packet
length; on a hit it increments total_packets/total_bytes and refreshes
the timestamp but PRESERVES the stored direction, protocol, device id and
ports (it does not overwrite them with the freshly computed values); all
other keys are untouched. -/
theorem c4_amended_update (s : TcState) (device_id src_port dst_port : Nat)
    (is_ingress : Bool) (protocol packet_len : Nat) :
    (s.device_connection_stats (dcsKeyOf s device_id src_port dst_port is_ingress protocol) =
        none →
      (update_device_connection_stats s device_id src_port dst_port is_ingress protocol
          packet_len).device_connection_stats
          (dcsKeyOf s device_id src_port dst_port is_ingress protocol) =
        some { device_id := device_id
               src_port := src_port
               dst_port := dst_port
               direction := adjust_direction_for_device s device_id is_ingress
               protocol := protocol
               timestamp := (s.total_stats 0).getD 0
               total_packets := 1
               total_bytes := packet_len }) ∧
    (∀ r, s.device_connection_stats (dcsKeyOf s device_id src_port dst_port is_ingress protocol) =
        some r →
      (update_device_connection_stats s device_id src_port dst_port is_ingress protocol
          packet_len).device_connection_stats
          (dcsKeyOf s device_id src_port dst_port is_ingress protocol) =
        some { device_id := r.device_id
               src_port := r.src_port
               dst_port := r.dst_port
               direction := r.direction
               protocol := r.protocol
               timestamp := (s.total_stats 0).getD 0
               total_packets := (r.total_packets + 1) % M64
               total_bytes := (r.total_bytes + packet_len) % M64 }) ∧
    (∀ k, k ≠ dcsKeyOf s device_id src_port dst_port is_ingress protocol →
      (update_device_connection_stats s device_id src_port dst_port is_ingress protocol
          packet_len).device_connection_stats k = s.device_connection_stats k) := by
  refine ⟨?_, ?_, ?_⟩
  · intro h
    exact update_device_connection_stats_miss s device_id src_port dst_port is_ingress
      protocol packet_len h
  · intro r h
    exact update_device_connection_stats_hit s device_id src_port dst_port is_ingress
      protocol packet_len r h
  · intro k hk
    exact update_device_connection_stats_other s device_id src_port dst_port is_ingress
      protocol packet_len k hk

/-- Witness for C4: instantiating the amended update rule on the empty
state (a miss) yields a record with count 1 and the freshly computed
direction. -/
theorem c4_witness :
    (update_device_connection_stats tcEmpty 1 0 256 true 6 50).device_connection_stats
        (dcsKeyOf tcEmpty 1 0 256 true 6) =
      some { device_id := 1
             src_port := 0
             dst_port := 256
             direction := adjust_direction_for_device tcEmpty 1 true
             protocol := 6
             timestamp := (tcEmpty.total_stats 0).getD 0
             total_packets := 1
             total_bytes := 50 } :=
  (c4_amended_update tcEmpty 1 0 256 true 6 50).1 rfl

/-- Claim C1, counterexample part: it is not true that exactly one
transition rule applies to every processed TCP packet — a TCP packet
whose flags contain none of SYN, ACK, FIN, RST (e.g. flags = 0, or a
PSH-only segment, flags = 8) matches no branch of the state machine, yet
the packet is processed: its connection byte counter is still updated. -/
theorem c1_counterexample :
    ruleOf 0 = none ∧ ruleOf 8 = none ∧
    (xnet xdpEmpty (mkPkt 60 6 1234 80 0)).1.connection_stats c2fwdKey = some 60 ∧
    (xnet xdpEmpty (mkPkt 60 6 1234 80 0)).1.connection_track c2fwdKey = none := by
  refine ⟨by decide, by decide, by decide, by decide⟩

/-- Claim C1 (amended): for every TCP packet processed by the ingress
pipeline, AT MOST one transition rule applies — the first of
SYN&&!ACK, SYN&&ACK, ACK&&!SYN, FIN, RST whose condition holds, none if
the flags contain none of SYN/ACK/FIN/RST; SYN without ACK writes NEW(1)
to the forward key only, SYN with ACK writes ESTABLISHED(2) to both keys,
ACK without SYN writes no state, FIN writes CLOSING(3) and RST RESET(4)
to both keys regardless of prior stored state (the state s is arbitrary);
and replaying the SYN-ACK transition twice leaves the same observable
connection_track state. -/
theorem c1_amended_rules (s : XdpState) (p : Packet)
    (hE : swap16 p.eth_proto = ETH_P_IP) (hP : p.protocol = 6)
    (hL : ethHdrSize + ipHdrSize + tcpHdrSize ≤ p.len) :
    (ruleOf p.flags = some TcpRule.synOnly ↔
      (synFlag p.flags = true ∧ ackFlag p.flags = false)) ∧
    (ruleOf p.flags = some TcpRule.synAck ↔
      (synFlag p.flags = true ∧ ackFlag p.flags = true)) ∧
    (ruleOf p.flags = some TcpRule.ackOnly ↔
      (ackFlag p.flags = true ∧ synFlag p.flags = false)) ∧
    (ruleOf p.flags = some TcpRule.finR ↔
      (finFlag p.flags = true ∧ synFlag p.flags = false ∧ ackFlag p.flags = false)) ∧
    (ruleOf p.flags = some TcpRule.rstR ↔
      (rstFlag p.flags = true ∧ finFlag p.flags = false ∧ synFlag p.flags = false ∧
        ackFlag p.flags = false)) ∧
    (ruleOf p.flags = none ↔
      (synFlag p.flags = false ∧ ackFlag p.flags = false ∧ finFlag p.flags = false ∧
        rstFlag p.flags = false)) ∧
    (ruleOf p.flags = some TcpRule.synOnly →
      (xnet s p).1.connection_track =
        upd s.connection_track (generate_conn_key p.saddr p.daddr p.source p.dest) 1) ∧
    (ruleOf p.flags = some TcpRule.synAck →
      (xnet s p).1.connection_track =
        upd (upd s.connection_track (generate_conn_key p.saddr p.daddr p.source p.dest) 2)
          (generate_conn_key p.daddr p.saddr p.dest p.source) 2) ∧
    (ruleOf p.flags = some TcpRule.ackOnly →
      (xnet s p).1.connection_track = s.connection_track) ∧
    (ruleOf p.flags = none →
      (xnet s p).1.connection_track = s.connection_track) ∧
    (ruleOf p.flags = some TcpRule.finR →
      (xnet s p).1.connection_track =
        upd (upd s.connection_track (generate_conn_key p.saddr p.daddr p.source p.dest) 3)
          (generate_conn_key p.daddr p.saddr p.dest p.source) 3) ∧
    (ruleOf p.flags = some TcpRule.rstR →
      (xnet s p).1.connection_track =
        upd (upd s.connection_track (generate_conn_key p.saddr p.daddr p.source p.dest) 4)
          (generate_conn_key p.daddr p.saddr p.dest p.source) 4) ∧
    (ruleOf p.flags = some TcpRule.synAck →
      (xnet (xnet s p).1 p).1.connection_track = (xnet s p).1.connection_track) := by
  have hx := xnet_tcp_valid s p hE hP hL
  refine ⟨?_, ?_, ?_, ?_, ?_, ?_, ?_, ?_, ?_, ?_, ?_, ?_, ?_⟩
  · unfold ruleOf
    cases hs : synFlag p.flags <;> cases ha : ackFlag p.flags <;>
      cases hf : finFlag p.flags <;> cases hr : rstFlag p.flags <;> simp
  · unfold ruleOf
    cases hs : synFlag p.flags <;> cases ha : ackFlag p.flags <;>
      cases hf : finFlag p.flags <;> cases hr : rstFlag p.flags <;> simp
  · unfold ruleOf
    cases hs : synFlag p.flags <;> cases ha : ackFlag p.flags <;>
      cases hf : finFlag p.flags <;> cases hr : rstFlag p.flags <;> simp
  · unfold ruleOf
    cases hs : synFlag p.flags <;> cases ha : ackFlag p.flags <;>
      cases hf : finFlag p.flags <;> cases hr : rstFlag p.flags <;> simp
  · unfold ruleOf
    cases hs : synFlag p.flags <;> cases ha : ackFlag p.flags <;>
      cases hf : finFlag p.flags <;> cases hr : rstFlag p.flags <;> simp
  · unfold ruleOf
    cases hs : synFlag p.flags <;> cases ha : ackFlag p.flags <;>
      cases hf : finFlag p.flags <;> cases hr : rstFlag p.flags <;> simp
  · intro h
    rw [hx]
    show (tcpApply (update_ip_stats s p.saddr p.len) p).connection_track = _
    simp [tcpApply, h, update_connection_stats_track, update_ip_stats_track]
  · intro h
    rw [hx]
    show (tcpApply (update_ip_stats s p.saddr p.len) p).connection_track = _
    simp [tcpApply, h, update_connection_stats_track, update_ip_stats_track]
  · intro h
    rw [hx]
    show (tcpApply (update_ip_stats s p.saddr p.len) p).connection_track = _
    simp [tcpApply, h, update_connection_stats_track, update_ip_stats_track]
  · intro h
    rw [hx]
    show (tcpApply (update_ip_stats s p.saddr p.len) p).connection_track = _
    simp [tcpApply, h, update_connection_stats_track, update_ip_stats_track]
  · intro h
    rw [hx]
    show (tcpApply (update_ip_stats s p.saddr p.len) p).connection_track = _
    simp [tcpApply, h, update_connection_stats_track, update_ip_stats_track]
  · intro h
    rw [hx]
    show (tcpApply (update_ip_stats s p.saddr p.len) p).connection_track = _
    simp [tcpApply, h, update_connection_stats_track, update_ip_stats_track]
  · intro h
    rw [hx, xnet_tcp_valid (tcpApply (update_ip_stats s p.saddr p.len) p) p hE hP hL]
    show (tcpApply (update_ip_stats (tcpApply (update_ip_stats s p.saddr p.len) p)
        p.saddr p.len) p).connection_track = _
    rw [tcpApply_ct_synAck _ p h, tcpApply_ct_synAck _ p h, update_ip_stats_track,
      tcpApply_ct_synAck _ p h, update_ip_stats_track]
    exact upd_upd_idem s.connection_track
      (generate_conn_key p.saddr p.daddr p.source p.dest)
      (generate_conn_key p.daddr p.saddr p.dest p.source) 2 2

/-- Witness for C1: a concrete SYN frame on the empty state writes NEW(1)
to the forward key. -/
theorem c1_witness :
    (xnet xdpEmpty (mkPkt 60 6 1234 80 2)).1.connection_track c2fwdKey = some 1 := by
  have h := c1_amended_rules xdpEmpty (mkPkt 60 6 1234 80 2) (by decide) rfl (by decide)
  rw [h.2.2.2.2.2.2.1 (by decide)]
  simp [upd, c2fwdKey, mkPkt]

lemma xnet_tc_cases (s : TcState) (p : Packet) :
    (xnet_tc s p).1 = s ∨
    (xnet_tc s p).1 = update_total_stats s p.len ∨
    (xnet_tc s p).1 = tcPortsDevices (update_total_stats s p.len) p := by
  unfold xnet_tc
  split
  · exact Or.inl rfl
  split
  · exact Or.inl rfl
  split
  · exact Or.inr (Or.inl rfl)
  split
  · exact Or.inr (Or.inl rfl)
  split
  · exact Or.inr (Or.inl rfl)
  · exact Or.inr (Or.inr rfl)

lemma tcPortStage_frame (s1 : TcState) (p : Packet) :
    (tcPortStage s1 p).total_stats = s1.total_stats ∧
    (tcPortStage s1 p).device_stats = s1.device_stats ∧
    (tcPortStage s1 p).device_map = s1.device_map ∧
    (tcPortStage s1 p).device_context = s1.device_context ∧
    (tcPortStage s1 p).device_connection_stats = s1.device_connection_stats := by
  unfold tcPortStage
  obtain ⟨h1, h2, h3, h4, h5⟩ :=
    update_port_stats_frame
      (update_port_stats s1 (swap16 p.source) p.len ((s1.total_stats 0).getD 0))
      (swap16 p.dest) p.len ((s1.total_stats 0).getD 0)
  obtain ⟨g1, g2, g3, g4, g5⟩ :=
    update_port_stats_frame s1 (swap16 p.source) p.len ((s1.total_stats 0).getD 0)
  exact ⟨h1.trans g1, h2.trans g2, h3.trans g3, h4.trans g4, h5.trans g5⟩

lemma tcPortStage_port_isSome (s1 : TcState) (p : Packet) :
    ((tcPortStage s1 p).port_stats (swap16 p.source)).isSome = true ∧
    ((tcPortStage s1 p).port_stats (swap16 p.dest)).isSome = true := by
  unfold tcPortStage
  constructor
  · by_cases h : swap16 p.source = swap16 p.dest
    · rw [h]
      exact update_port_stats_self _ _ _ _
    · rw [update_port_stats_other _ _ _ _ _ h]
      exact update_port_stats_self _ _ _ _
  · exact update_port_stats_self _ _ _ _

lemma bump_total_packets_zero (s : TcState) :
    (bump_total_packets s).total_stats 0 = some (((s.total_stats 0).getD 0 + 1) % M64) := by
  cases h0 : s.total_stats 0 <;> simp [bump_total_packets, h0, upd]
  rw [Nat.mod_eq_of_lt (by norm_num [M64])]

lemma bump_total_bytes_zero (s : TcState) (L : Nat) :
    (bump_total_bytes s L).total_stats 0 = s.total_stats 0 := by
  cases h1 : s.total_stats 1 <;> simp [bump_total_bytes, h1, upd]

lemma update_total_stats_zero (s : TcState) (L : Nat) :
    (update_total_stats s L).total_stats 0 =
      some (((s.total_stats 0).getD 0 + 1) % M64) := by
  unfold update_total_stats
  rw [bump_total_bytes_zero, bump_total_packets_zero]

lemma generate_device_key_div2 (id : Nat) (b : Bool) (h : id ≤ 63) :
    generate_device_key id b / 2 = id := by
  have hlt : id * 2 + 1 < M32 := by
    have h1 : id * 2 + 1 ≤ 127 := by omega
    have h2 : (127 : Nat) < M32 := by norm_num [M32]
    omega
  cases b <;> unfold generate_device_key <;> simp only [Bool.false_eq_true, if_false, if_true]
  · rw [Nat.mod_eq_of_lt hlt]
    omega
  · rw [Nat.mod_eq_of_lt (by omega : id * 2 < M32)]
    omega

lemma get_ctx_tcPortStage (s1 : TcState) (p : Packet) :
    get_current_device_context (tcPortStage s1 p) = get_current_device_context s1 :=
  get_ctx_congr _ _ (tcPortStage_frame s1 p).2.2.2.1

lemma get_ctx_update_total (s : TcState) (L : Nat) :
    get_current_device_context (update_total_stats s L) = get_current_device_context s :=
  get_ctx_congr _ _ (update_total_stats_frame s L).2.2.2.1

/-- Claim C5: on the classifier path, device_stats and
device_connection_stats records are written only when some device id in
1..=63 has a device_context entry; for device_stats the touched key k
even determines that entry (k / 2 is the selected device id). With no
context entry present, the device-scoped tables are untouched while
total_stats and port_stats are still updated for a fully parsed packet. -/
theorem c5_device_gate (s : TcState) (p : Packet) :
    (∀ k, (xnet_tc s p).1.device_stats k ≠ s.device_stats k →
      1 ≤ k / 2 ∧ k / 2 ≤ 63 ∧ s.device_context (k / 2) ≠ none) ∧
    (∀ k, (xnet_tc s p).1.device_connection_stats k ≠ s.device_connection_stats k →
      ∃ id, 1 ≤ id ∧ id ≤ 63 ∧ s.device_context id ≠ none) ∧
    ((∀ id, 1 ≤ id → id ≤ 63 → s.device_context id = none) →
      (xnet_tc s p).1.device_stats = s.device_stats ∧
      (xnet_tc s p).1.device_connection_stats = s.device_connection_stats) ∧
    ((∀ id, 1 ≤ id → id ≤ 63 → s.device_context id = none) →
      swap16 p.eth_proto = ETH_P_IP → (p.protocol = 6 ∨ p.protocol = 17) →
      ethHdrSize + ipHdrSize + tcpHdrSize ≤ p.len →
      (xnet_tc s p).1.total_stats 0 = some (((s.total_stats 0).getD 0 + 1) % M64) ∧
      ((xnet_tc s p).1.port_stats (swap16 p.source)).isSome = true ∧
      ((xnet_tc s p).1.port_stats (swap16 p.dest)).isSome = true) := by
  have hds1 := (update_total_stats_frame s p.len).2.1
  have hdcs1 := (update_total_stats_frame s p.len).2.2.2.2
  have hctx1 := (update_total_stats_frame s p.len).2.2.2.1
  have hds3 := (tcPortStage_frame (update_total_stats s p.len) p).2.1
  have hdcs3 := (tcPortStage_frame (update_total_stats s p.len) p).2.2.2.2
  refine ⟨?_, ?_, ?_, ?_⟩
  · intro k hne
    rcases xnet_tc_cases s p with h | h | h
    · rw [h] at hne
      exact absurd rfl hne
    · rw [h, hds1] at hne
      exact absurd rfl hne
    · rw [h] at hne
      cases hctx : get_current_device_context (tcPortStage (update_total_stats s p.len) p) with
      | none =>
        simp only [tcPortsDevices, hctx] at hne
        rw [hds3, hds1] at hne
        exact absurd rfl hne
      | some ib =>
        obtain ⟨id, b⟩ := ib
        simp only [tcPortsDevices, hctx] at hne
        rw [(update_device_connection_stats_frame _ _ _ _ _ _ _).2.2.2.2] at hne
        have hg : get_current_device_context s = some (id, b) := by
          rw [← get_ctx_update_total s p.len, ← get_ctx_tcPortStage]
          exact hctx
        obtain ⟨hid1, hid2, v, hv, _⟩ := get_ctx_sound hg
        by_cases hk : k = generate_device_key id b
        · subst hk
          rw [generate_device_key_div2 id b hid2]
          exact ⟨hid1, hid2, by rw [hv]; simp⟩
        · rw [update_device_stats_other _ _ _ _ _ hk, hds3, hds1] at hne
          exact absurd rfl hne
  · intro k hne
    rcases xnet_tc_cases s p with h | h | h
    · rw [h] at hne
      exact absurd rfl hne
    · rw [h, hdcs1] at hne
      exact absurd rfl hne
    · rw [h] at hne
      cases hctx : get_current_device_context (tcPortStage (update_total_stats s p.len) p) with
      | none =>
        simp only [tcPortsDevices, hctx] at hne
        rw [hdcs3, hdcs1] at hne
        exact absurd rfl hne
      | some ib =>
        obtain ⟨id, b⟩ := ib
        have hg : get_current_device_context s = some (id, b) := by
          rw [← get_ctx_update_total s p.len, ← get_ctx_tcPortStage]
          exact hctx
        obtain ⟨hid1, hid2, v, hv, _⟩ := get_ctx_sound hg
        exact ⟨id, hid1, hid2, by rw [hv]; simp⟩
  · intro hnone
    have hg : get_current_device_context (tcPortStage (update_total_stats s p.len) p) = none := by
      rw [get_ctx_tcPortStage, get_ctx_update_total]
      exact get_ctx_none hnone
    rcases xnet_tc_cases s p with h | h | h
    · rw [h]
      exact ⟨rfl, rfl⟩
    · rw [h]
      exact ⟨hds1, hdcs1⟩
    · rw [h]
      simp only [tcPortsDevices, hg]
      exact ⟨hds3.trans hds1, hdcs3.trans hdcs1⟩
  · intro hnone hE hp hL
    have hg : get_current_device_context (tcPortStage (update_total_stats s p.len) p) = none := by
      rw [get_ctx_tcPortStage, get_ctx_update_total]
      exact get_ctx_none hnone
    rw [xnet_tc_valid s p hE hp hL]
    show (tcPortsDevices (update_total_stats s p.len) p).total_stats 0 =
        some (((s.total_stats 0).getD 0 + 1) % M64) ∧ _ ∧ _
    simp only [tcPortsDevices, hg]
    refine ⟨?_, ?_, ?_⟩
    · rw [(tcPortStage_frame (update_total_stats s p.len) p).1]
      exact update_total_stats_zero s p.len
    · exact (tcPortStage_port_isSome _ p).1
    · exact (tcPortStage_port_isSome _ p).2

/-- Witness for C5: on the empty state and a valid TCP frame, no device
record is written, total_stats slot 0 becomes 1, and both port records
exist. -/
theorem c5_witness :
    (xnet_tc tcEmpty (mkPkt 60 6 1234 80 16)).1.device_stats = tcEmpty.device_stats ∧
    (xnet_tc tcEmpty (mkPkt 60 6 1234 80 16)).1.total_stats 0 =
      some (((tcEmpty.total_stats 0).getD 0 + 1) % M64) ∧
    ((xnet_tc tcEmpty (mkPkt 60 6 1234 80 16)).1.port_stats
      (swap16 (mkPkt 60 6 1234 80 16).source)).isSome = true := by
  have h := c5_device_gate tcEmpty (mkPkt 60 6 1234 80 16)
  refine ⟨(h.2.2.1 (fun id _ _ => rfl)).1, ?_, ?_⟩
  · exact (h.2.2.2 (fun id _ _ => rfl) (by decide) (Or.inl rfl) (by decide)).1
  · exact (h.2.2.2 (fun id _ _ => rfl) (by decide) (Or.inl rfl) (by decide)).2.1

/-- Claim C6: the device id used for device-scoped statistics is returned
by `get_current_device_context`, which selects the smallest id in 1..=63
with a device_context entry (independent of the packet: the function
reads no packet data), takes ingress from bit 16 of the entry (bit clear
means ingress), and never selects an entry stored under id 0 (a state
whose only entries are outside 1..=63 yields no context). -/
theorem c6_context_selection (s : TcState) (id v : Nat)
    (h1 : 1 ≤ id) (h2 : id ≤ 63) (hv : s.device_context id = some v)
    (hmin : ∀ j, 1 ≤ j → j < id → s.device_context j = none) :
    get_current_device_context s = some (id, (((v >>> 16) &&& 1) == 0)) ∧
    (∀ t : TcState, (∀ j, 1 ≤ j → j ≤ 63 → t.device_context j = none) →
      get_current_device_context t = none) := by
  constructor
  · unfold get_current_device_context
    rw [findSome_natRange_of_min
      (fun device_id => match s.device_context device_id with
        | some context => some (device_id, ((context >>> 16) &&& 1) == 0)
        | none => none) 63 1 id h1 (by omega) (by simp [hv])
      (fun j hj1 hj2 => by simp [hmin j hj1 hj2])]
    simp [hv]
  · intro t ht
    exact get_ctx_none ht

/-- C6 scenario states: one with a single entry at id 5 whose bit 16 is
set (egress), one with an entry only under the never-selected id 0. -/
def c6s : TcState := { tcEmpty with device_context := upd tcEmpty.device_context 5 65536 }

def c6s0 : TcState := { tcEmpty with device_context := upd tcEmpty.device_context 0 1 }

/-- Witness for C6: the state with only id 5 mapped to 65536 (bit 16 set)
selects (5, egress); the state with only an id-0 entry selects nothing. -/
theorem c6_witness :
    get_current_device_context c6s = some (5, (((65536 >>> 16) &&& 1) == 0)) ∧
    get_current_device_context c6s0 = none := by
  have h := c6_context_selection c6s 5 65536 (by decide) (by decide) (by simp [c6s, upd])
    (fun j hj1 hj2 => by
      show (if j = 5 then some 65536 else tcEmpty.device_context j) = none
      rw [if_neg (by omega)]
      rfl)
  exact ⟨h.1, h.2 c6s0 (fun j hj1 hj2 => by
    show (if j = 0 then some 1 else tcEmpty.device_context j) = none
    rw [if_neg (by omega)]
    rfl)⟩

/-- Claim C8: for every valid IPv4/UDP packet of length L on the ingress
pipeline (with distinct source and destination addresses, which the
claim treats as separate keys), ip_stats is updated under the source on
the common IPv4 path and again under both source and destination inside
the UDP handler — so the source counter grows by 2*L and the destination
counter by L. -/
theorem c8_udp_double_count (s : XdpState) (p : Packet)
    (hE : swap16 p.eth_proto = ETH_P_IP) (hP : p.protocol = 17)
    (hL : ethHdrSize + ipHdrSize + udpHdrSize ≤ p.len) (hne : p.saddr ≠ p.daddr) :
    (xnet s p).1.ip_stats p.saddr =
      some (((s.ip_stats p.saddr).getD 0 + 2 * p.len) % M64) ∧
    (xnet s p).1.ip_stats p.daddr =
      some (((s.ip_stats p.daddr).getD 0 + p.len) % M64) := by
  rw [xnet_udp_valid s p hE hP hL]
  constructor
  · show (update_ip_stats (update_ip_stats (update_ip_stats s p.saddr p.len) p.saddr p.len)
        p.daddr p.len).ip_stats p.saddr = _
    simp [update_ip_stats, upd, hne]
    congr 1
    omega
  · show (update_ip_stats (update_ip_stats (update_ip_stats s p.saddr p.len) p.saddr p.len)
        p.daddr p.len).ip_stats p.daddr = _
    simp [update_ip_stats, upd, Ne.symm hne]

/-- Witness for C8: one 100-byte UDP frame on the empty state leaves 200
bytes under the source address and 100 under the destination. -/
theorem c8_witness :
    (xnet xdpEmpty (mkPkt 100 17 1234 80 0)).1.ip_stats ip1 = some 200 ∧
    (xnet xdpEmpty (mkPkt 100 17 1234 80 0)).1.ip_stats ip2 = some 100 := by
  have h := c8_udp_double_count xdpEmpty (mkPkt 100 17 1234 80 0) (by decide) rfl
    (by decide) (by decide)
  constructor
  · rw [show (mkPkt 100 17 1234 80 0).saddr = ip1 from rfl] at h
    rw [h.1]
    decide
  · rw [show (mkPkt 100 17 1234 80 0).daddr = ip2 from rfl] at h
    rw [h.2]
    decide

/-- Claim C9: the ingress pipeline always returns XDP_PASS and the
classifier always returns TC_ACT_OK, on every input packet and state; and
when a bounds check fails at any header-parsing stage, the final state is
EXACTLY the state with the updates committed before that stage — so no
shared table is modified beyond them. Per stage: an XDP Ethernet- or
IPv4-stage failure leaves the whole state untouched; an XDP TCP- or
UDP-stage failure leaves exactly the single common-path ip_stats update
under the source address (in particular the UDP handler's source and
destination updates do not happen); a TC Ethernet-stage failure leaves
the whole state untouched (total_stats included); a TC IPv4- or
transport-stage failure leaves exactly the total_stats update. -/
theorem c9_pass_through (s : XdpState) (t : TcState) (p : Packet) :
    (xnet s p).2 = XDP_PASS ∧
    (xnet_tc t p).2 = TC_ACT_OK ∧
    (p.len < ethHdrSize → (xnet s p).1 = s) ∧
    (p.len < ethHdrSize + ipHdrSize → (xnet s p).1 = s) ∧
    (swap16 p.eth_proto = ETH_P_IP → p.protocol = 6 →
      ethHdrSize + ipHdrSize ≤ p.len → p.len < ethHdrSize + ipHdrSize + tcpHdrSize →
      (xnet s p).1 = update_ip_stats s p.saddr p.len) ∧
    (swap16 p.eth_proto = ETH_P_IP → p.protocol = 17 →
      ethHdrSize + ipHdrSize ≤ p.len → p.len < ethHdrSize + ipHdrSize + udpHdrSize →
      (xnet s p).1 = update_ip_stats s p.saddr p.len) ∧
    (p.len < ethHdrSize → (xnet_tc t p).1 = t) ∧
    (swap16 p.eth_proto = ETH_P_IP → ethHdrSize ≤ p.len →
      p.len < ethHdrSize + ipHdrSize → (xnet_tc t p).1 = update_total_stats t p.len) ∧
    (swap16 p.eth_proto = ETH_P_IP → (p.protocol = 6 ∨ p.protocol = 17) →
      ethHdrSize + ipHdrSize ≤ p.len → p.len < ethHdrSize + ipHdrSize + tcpHdrSize →
      (xnet_tc t p).1 = update_total_stats t p.len) := by
  refine ⟨xnet_verdict s p, xnet_tc_verdict t p, ?_, ?_, ?_, ?_, ?_, ?_, ?_⟩
  · intro h
    have h14 : ethHdrSize > p.len := h
    simp [xnet, h14]
  · intro h
    by_cases h14 : ethHdrSize > p.len
    · simp [xnet, h14]
    by_cases hE : swap16 p.eth_proto ≠ ETH_P_IP
    · simp [xnet, h14, hE]
    · have h34 : ethHdrSize + ipHdrSize > p.len := h
      simp [xnet, h14, hE, h34]
  · intro hE hP h34 h54
    have h14 : ¬ ethHdrSize > p.len := by omega
    have h34n : ¬ ethHdrSize + ipHdrSize > p.len := by omega
    have hE2 : ¬ swap16 p.eth_proto ≠ ETH_P_IP := by simp [hE]
    have hnone : handle_tcp_connection (update_ip_stats s p.saddr p.len) p = none := by
      unfold handle_tcp_connection
      rw [if_pos h54]
    simp [xnet, h14, hE2, h34n, hP, hnone]
  · intro hE hP h34 h42
    have h14 : ¬ ethHdrSize > p.len := by omega
    have h34n : ¬ ethHdrSize + ipHdrSize > p.len := by omega
    have hE2 : ¬ swap16 p.eth_proto ≠ ETH_P_IP := by simp [hE]
    have hP6 : ¬ p.protocol = 6 := by omega
    have hnone : handle_udp_connection (update_ip_stats s p.saddr p.len) p = none := by
      unfold handle_udp_connection
      rw [if_pos h42]
    simp [xnet, h14, hE2, h34n, hP, hP6, hnone]
  · intro h
    have h14 : ethHdrSize > p.len := h
    simp [xnet_tc, h14]
  · intro hE h14le h34
    have h14 : ¬ ethHdrSize > p.len := by omega
    have hE2 : ¬ swap16 p.eth_proto ≠ ETH_P_IP := by simp [hE]
    have h34g : ethHdrSize + ipHdrSize > p.len := h34
    simp [xnet_tc, h14, hE2, h34g]
  · intro hE hPr h34 h54
    have h14 : ¬ ethHdrSize > p.len := by omega
    have h34n : ¬ ethHdrSize + ipHdrSize > p.len := by omega
    have hE2 : ¬ swap16 p.eth_proto ≠ ETH_P_IP := by simp [hE]
    have hPr2 : ¬ (p.protocol ≠ 6 ∧ p.protocol ≠ 17) := by tauto
    have h54g : ethHdrSize + ipHdrSize + tcpHdrSize > p.len := h54
    simp [xnet_tc, h14, hE2, h34n, hPr2, h54g]

/-- Witness for C9: passing the PASS/OK verdicts and the exact committed
prefixes at concrete failure stages — a 40-byte TCP frame (transport
failure in both pipelines: only the ip_stats source update on XDP, only
the totals update on TC), a 40-byte UDP frame, and a 10-byte frame that
fails already at the Ethernet stage, leaving both states untouched. -/
theorem c9_witness :
    (xnet xdpEmpty (mkPkt 40 6 1234 80 1)).2 = XDP_PASS ∧
    (xnet_tc tcEmpty (mkPkt 40 6 1234 80 1)).2 = TC_ACT_OK ∧
    (xnet xdpEmpty (mkPkt 10 6 1234 80 1)).1 = xdpEmpty ∧
    (xnet_tc tcEmpty (mkPkt 10 6 1234 80 1)).1 = tcEmpty ∧
    (xnet xdpEmpty (mkPkt 40 6 1234 80 1)).1 =
      update_ip_stats xdpEmpty (mkPkt 40 6 1234 80 1).saddr (mkPkt 40 6 1234 80 1).len ∧
    (xnet xdpEmpty (mkPkt 40 17 1234 80 0)).1 =
      update_ip_stats xdpEmpty (mkPkt 40 17 1234 80 0).saddr (mkPkt 40 17 1234 80 0).len ∧
    (xnet_tc tcEmpty (mkPkt 40 6 1234 80 1)).1 =
      update_total_stats tcEmpty (mkPkt 40 6 1234 80 1).len := by
  have h := c9_pass_through xdpEmpty tcEmpty (mkPkt 40 6 1234 80 1)
  have h10 := c9_pass_through xdpEmpty tcEmpty (mkPkt 10 6 1234 80 1)
  have hu := c9_pass_through xdpEmpty tcEmpty (mkPkt 40 17 1234 80 0)
  refine ⟨h.1, h.2.1, h10.2.2.1 (by decide), h10.2.2.2.2.2.2.1 (by decide), ?_, ?_, ?_⟩
  · exact h.2.2.2.2.1 (by decide) rfl (by decide) (by decide)
  · exact hu.2.2.2.2.2.1 (by decide) rfl (by decide) (by decide)
  · exact h.2.2.2.2.2.2.2.2 (by decide) (Or.inl rfl) (by decide) (by decide)

lemma xnet_cases (s : XdpState) (p : Packet) :
    (xnet s p).1 = s ∨
    (xnet s p).1 = update_ip_stats s p.saddr p.len ∨
    (xnet s p).1 = tcpApply (update_ip_stats s p.saddr p.len) p ∨
    (xnet s p).1 =
      update_ip_stats (update_ip_stats (update_ip_stats s p.saddr p.len) p.saddr p.len)
        p.daddr p.len := by
  unfold xnet
  split
  · exact Or.inl rfl
  split
  · exact Or.inl rfl
  split
  · exact Or.inl rfl
  split
  · by_cases hb : ethHdrSize + ipHdrSize + tcpHdrSize > p.len
    · have hm : handle_tcp_connection (update_ip_stats s p.saddr p.len) p = none := by
        unfold handle_tcp_connection
        rw [if_pos hb]
      simp [hm]
    · have hm : handle_tcp_connection (update_ip_stats s p.saddr p.len) p =
          some (tcpApply (update_ip_stats s p.saddr p.len) p) := by
        unfold handle_tcp_connection
        rw [if_neg hb]
      simp [hm]
  split
  · by_cases hb : ethHdrSize + ipHdrSize + udpHdrSize > p.len
    · have hm : handle_udp_connection (update_ip_stats s p.saddr p.len) p = none := by
        unfold handle_udp_connection
        rw [if_pos hb]
      simp [hm]
    · have hm : handle_udp_connection (update_ip_stats s p.saddr p.len) p =
          some (update_ip_stats (update_ip_stats (update_ip_stats s p.saddr p.len)
            p.saddr p.len) p.daddr p.len) := by
        unfold handle_udp_connection
        rw [if_neg hb]
      simp [hm]
  · simp

lemma tcPortsDevices_total (s1 : TcState) (p : Packet) :
    (tcPortsDevices s1 p).total_stats = s1.total_stats := by
  cases hctx : get_current_device_context (tcPortStage s1 p) with
  | none =>
    simp only [tcPortsDevices, hctx]
    exact (tcPortStage_frame s1 p).1
  | some ib =>
    obtain ⟨id, b⟩ := ib
    simp only [tcPortsDevices, hctx]
    rw [(update_device_connection_stats_frame _ _ _ _ _ _ _).2.1,
      (update_device_stats_frame _ _ _ _).2.1, (tcPortStage_frame s1 p).1]

/-- Claim C10: in a single-threaded step of either pipeline, no stored
counter decreases: ip_stats and connection_stats bytes, the two
total_stats slots, and the packets/bytes counters of port_stats,
device_stats and device_connection_stats records are all monotonically
non-decreasing (stated for any stored value below 2^63 and any frame
below 2^32 bytes, so that the u64 wrapping arithmetic cannot overflow —
bounds no physically reachable run can violate). -/
theorem c10_monotonic (s : XdpState) (t : TcState) (p : Packet) (hlen : p.len < 2 ^ 32) :
    (∀ k v, s.ip_stats k = some v → v < 2 ^ 63 →
      ∃ w, (xnet s p).1.ip_stats k = some w ∧ v ≤ w) ∧
    (∀ k v, s.connection_stats k = some v → v < 2 ^ 63 →
      ∃ w, (xnet s p).1.connection_stats k = some w ∧ v ≤ w) ∧
    (∀ k v, t.total_stats k = some v → v < 2 ^ 63 →
      ∃ w, (xnet_tc t p).1.total_stats k = some w ∧ v ≤ w) ∧
    (∀ k r, t.port_stats k = some r → r.packets < 2 ^ 63 → r.bytes < 2 ^ 63 →
      ∃ r2, (xnet_tc t p).1.port_stats k = some r2 ∧
        r.packets ≤ r2.packets ∧ r.bytes ≤ r2.bytes) ∧
    (∀ k r, t.device_stats k = some r → r.packets < 2 ^ 63 → r.bytes < 2 ^ 63 →
      ∃ r2, (xnet_tc t p).1.device_stats k = some r2 ∧
        r.packets ≤ r2.packets ∧ r.bytes ≤ r2.bytes) ∧
    (∀ k r, t.device_connection_stats k = some r → r.total_packets < 2 ^ 63 →
        r.total_bytes < 2 ^ 63 →
      ∃ r2, (xnet_tc t p).1.device_connection_stats k = some r2 ∧
        r.total_packets ≤ r2.total_packets ∧ r.total_bytes ≤ r2.total_bytes) := by
  have hM : M64 = 2 ^ 64 := rfl
  refine ⟨?_, ?_, ?_, ?_, ?_, ?_⟩
  · intro k v hv hb
    rcases xnet_cases s p with h | h | h | h
    · rw [h]
      exact ⟨v, hv, Nat.le_refl v⟩
    · rw [h]
      obtain ⟨w, hw, hle, _⟩ := update_ip_stats_mono s p.saddr p.len k v hv (by omega)
      exact ⟨w, hw, hle⟩
    · rw [h, tcpApply_ip]
      obtain ⟨w, hw, hle, _⟩ := update_ip_stats_mono s p.saddr p.len k v hv (by omega)
      exact ⟨w, hw, hle⟩
    · rw [h]
      obtain ⟨w1, hw1, hle1, hub1⟩ := update_ip_stats_mono s p.saddr p.len k v hv (by omega)
      obtain ⟨w2, hw2, hle2, hub2⟩ :=
        update_ip_stats_mono (update_ip_stats s p.saddr p.len) p.saddr p.len k w1 hw1
          (by omega)
      obtain ⟨w3, hw3, hle3, _⟩ :=
        update_ip_stats_mono (update_ip_stats (update_ip_stats s p.saddr p.len) p.saddr p.len)
          p.daddr p.len k w2 hw2 (by omega)
      exact ⟨w3, hw3, by omega⟩
  · intro k v hv hb
    rcases xnet_cases s p with h | h | h | h
    · rw [h]
      exact ⟨v, hv, Nat.le_refl v⟩
    · rw [h, update_ip_stats_cs]
      exact ⟨v, hv, Nat.le_refl v⟩
    · rw [h, tcpApply_cs]
      obtain ⟨w, hw, hle, _⟩ :=
        update_connection_stats_mono (update_ip_stats s p.saddr p.len)
          (generate_conn_key p.saddr p.daddr p.source p.dest) p.len k v
          (by rw [update_ip_stats_cs]; exact hv) (by omega)
      exact ⟨w, hw, hle⟩
    · rw [h, update_ip_stats_cs, update_ip_stats_cs, update_ip_stats_cs]
      exact ⟨v, hv, Nat.le_refl v⟩
  · intro k v hv hb
    rcases xnet_tc_cases t p with h | h | h
    · rw [h]
      exact ⟨v, hv, Nat.le_refl v⟩
    · rw [h]
      obtain ⟨w, hw, hle, _⟩ := update_total_stats_mono t p.len k v hv (by omega)
      exact ⟨w, hw, hle⟩
    · rw [h, tcPortsDevices_total]
      obtain ⟨w, hw, hle, _⟩ := update_total_stats_mono t p.len k v hv (by omega)
      exact ⟨w, hw, hle⟩
  · intro k r hv hp hb
    have hv1 : (update_total_stats t p.len).port_stats k = some r := by
      rw [(update_total_stats_frame t p.len).1]
      exact hv
    rcases xnet_tc_cases t p with h | h | h
    · rw [h]
      exact ⟨r, hv, Nat.le_refl _, Nat.le_refl _⟩
    · rw [h]
      exact ⟨r, hv1, Nat.le_refl _, Nat.le_refl _⟩
    · rw [h]
      have hport : (tcPortsDevices (update_total_stats t p.len) p).port_stats =
          (tcPortStage (update_total_stats t p.len) p).port_stats := by
        cases hctx : get_current_device_context (tcPortStage (update_total_stats t p.len) p) with
        | none => simp only [tcPortsDevices, hctx]
        | some ib =>
          obtain ⟨id, b⟩ := ib
          simp only [tcPortsDevices, hctx]
          rw [(update_device_connection_stats_frame _ _ _ _ _ _ _).1,
            (update_device_stats_frame _ _ _ _).1]
      rw [hport]
      unfold tcPortStage
      obtain ⟨r1, hr1, hle1p, hub1p, hle1b, hub1b⟩ :=
        update_port_stats_mono (update_total_stats t p.len) (swap16 p.source) p.len
          (((update_total_stats t p.len).total_stats 0).getD 0) k r hv1 (by omega) (by omega)
      obtain ⟨r2, hr2, hle2p, _, hle2b, _⟩ :=
        update_port_stats_mono _ (swap16 p.dest) p.len
          (((update_total_stats t p.len).total_stats 0).getD 0) k r1 hr1 (by omega) (by omega)
      exact ⟨r2, hr2, by omega, by omega⟩
  · intro k r hv hp hb
    have hv3 : (tcPortStage (update_total_stats t p.len) p).device_stats k = some r := by
      rw [(tcPortStage_frame _ p).2.1, (update_total_stats_frame t p.len).2.1]
      exact hv
    rcases xnet_tc_cases t p with h | h | h
    · rw [h]
      exact ⟨r, hv, Nat.le_refl _, Nat.le_refl _⟩
    · rw [h]
      rw [(update_total_stats_frame t p.len).2.1]
      exact ⟨r, hv, Nat.le_refl _, Nat.le_refl _⟩
    · rw [h]
      cases hctx : get_current_device_context (tcPortStage (update_total_stats t p.len) p) with
      | none =>
        simp only [tcPortsDevices, hctx]
        exact ⟨r, hv3, Nat.le_refl _, Nat.le_refl _⟩
      | some ib =>
        obtain ⟨id, b⟩ := ib
        simp only [tcPortsDevices, hctx]
        rw [(update_device_connection_stats_frame _ _ _ _ _ _ _).2.2.2.2]
        exact update_device_stats_mono _ id b p.len k r hv3 (by omega) (by omega)
  · intro k r hv hp hb
    have hv3 : (tcPortStage (update_total_stats t p.len) p).device_connection_stats k =
        some r := by
      rw [(tcPortStage_frame _ p).2.2.2.2, (update_total_stats_frame t p.len).2.2.2.2]
      exact hv
    rcases xnet_tc_cases t p with h | h | h
    · rw [h]
      exact ⟨r, hv, Nat.le_refl _, Nat.le_refl _⟩
    · rw [h]
      rw [(update_total_stats_frame t p.len).2.2.2.2]
      exact ⟨r, hv, Nat.le_refl _, Nat.le_refl _⟩
    · rw [h]
      cases hctx : get_current_device_context (tcPortStage (update_total_stats t p.len) p) with
      | none =>
        simp only [tcPortsDevices, hctx]
        exact ⟨r, hv3, Nat.le_refl _, Nat.le_refl _⟩
      | some ib =>
        obtain ⟨id, b⟩ := ib
        simp only [tcPortsDevices, hctx]
        have hdev : (update_device_stats (tcPortStage (update_total_stats t p.len) p)
            id b p.len).device_connection_stats k = some r := by
          rw [(update_device_stats_frame _ _ _ _).2.2.2.2]
          exact hv3
        exact update_device_connection_stats_mono _ id (swap16 p.source) (swap16 p.dest) b
          p.protocol p.len k r hdev (by omega) (by omega)

/-- C10 scenario states: one XDP state with a stored ip_stats counter,
one TC state with a stored total_stats counter. -/
def c10s : XdpState := { xdpEmpty with ip_stats := upd xdpEmpty.ip_stats ip1 5 }

def c10t : TcState := { tcEmpty with total_stats := upd tcEmpty.total_stats 0 7 }

/-- Witness for C10: a concrete 100-byte UDP frame never decreases the
stored counters 5 (ip_stats) and 7 (total_stats slot 0). -/
theorem c10_witness :
    (∃ w, (xnet c10s (mkPkt 100 17 1234 80 0)).1.ip_stats ip1 = some w ∧ 5 ≤ w) ∧
    (∃ w, (xnet_tc c10t (mkPkt 100 17 1234 80 0)).1.total_stats 0 = some w ∧ 7 ≤ w) := by
  have h := c10_monotonic c10s c10t (mkPkt 100 17 1234 80 0) (by decide)
  exact ⟨h.1 ip1 5 (by decide) (by decide), h.2.2.1 0 7 (by decide) (by decide)⟩

end XNet
